import Mathlib

/-!
Shallow embedding of the shell-integration launch-configuration resolver
`getShellIntegrationInjection` from `vs/platform/terminal/node/terminalEnvironment`.
The implementation file is not among the visible sources; only its test suite is.
The resolver and its helpers are therefore modelled from the specification, and
the concrete strings they produce are cross-checked against the expectations
recorded in the test suite (`expectedPs1`, `expectedDests`, `expectedSources`,
the frozen `enabledExpectedResult` objects, and `assertIsEnabled`).
-/

set_option autoImplicit false

/-- Modelled from the spec: the closed set of shell families the classifier can
produce (`PowerShellLike`, `Bash`, `Zsh`, `Unsupported`); the classifier of the
missing `vs/platform/terminal/node/terminalEnvironment.ts` derives it once per
call from the executable. -/
inductive ShellFamily where
  | pwsh
  | bash
  | zsh
  | unsupported
  deriving DecidableEq

/-- Modelled from the spec: the three representations of a launch request's
`args` field — absent, a single string, or an ordered sequence of strings. -/
inductive ShellArgs where
  | unset
  | str (s : String)
  | list (l : List String)
  deriving DecidableEq

/-- Modelled from the spec: a `LaunchRequest` carries the executable, the
heterogeneous argument representation and the feature-terminal flag. -/
structure LaunchRequest where
  executable : String
  args : ShellArgs
  isFeatureTerminal : Bool
  deriving DecidableEq

/-- Modelled from the spec: the integration policy switch (the
`shellIntegration` member of `ITerminalProcessOptions`). -/
structure IntegrationPolicy where
  enabled : Bool
  deriving DecidableEq

/-- Modelled from the spec: the inherited environment; only `ZDOTDIR` and
`USER_ZDOTDIR` are inspected by the resolver. -/
structure Environment where
  ZDOTDIR : Option String
  USER_ZDOTDIR : Option String
  deriving DecidableEq

/-- Modelled from the spec: the ambient, read-only platform inputs the missing
implementation draws on — the platform (whether the path separator is the
backslash), the installation root under which the bundled scripts live, and the
invoking user's name, home directory and temp root. -/
structure SysContext where
  isWindows : Bool
  appRoot : String
  username : String
  homedir : String
  tmpdir : String
  deriving DecidableEq

/-- Modelled from the spec: one declared file copy of an injection plan. -/
structure FileToCopy where
  source : String
  dest : String
  deriving DecidableEq

/-- Modelled from the spec: the `IShellIntegrationConfigInjection` result — new
arguments, an environment overlay, and an optional list of files to stage
(absent for every family but zsh). -/
structure IShellIntegrationConfigInjection where
  newArgs : List String
  envMixin : List (String × String)
  filesToCopy : Option (List FileToCopy)
  deriving DecidableEq

/-- Modelled from the spec: the internal flag record threaded from the flag
matcher into a strategy. -/
structure RecognizedFlags where
  hasLogin : Bool
  hasNoLogoOrEquivalent : Bool
  deriving DecidableEq

/-- Lower-case a string character by character. -/
def lowerStr (s : String) : String :=
  String.mk (s.toList.map Char.toLower)

/-- Modelled from the spec: the characters after the last path separator
(`/` always, `\` additionally on the backslash platform). -/
def baseNameChars (isWin : Bool) : List Char → List Char → List Char
  | [], acc => acc
  | c :: rest, acc =>
    if c = '/' ∨ (isWin = true ∧ c = '\\') then baseNameChars isWin rest []
    else baseNameChars isWin rest (acc ++ [c])

/-- Modelled from the spec: strip the platform executable suffix `.exe` on the
backslash platform. -/
def dropExeSuffix (isWin : Bool) (cs : List Char) : List Char :=
  if isWin = true ∧ List.isSuffixOf ['.', 'e', 'x', 'e'] cs = true then
    cs.take (cs.length - 4)
  else cs

/-- Modelled from the spec: the shell classifier's normalised base name —
directories and the platform executable suffix stripped, lower-cased. -/
def shellBaseName (isWin : Bool) (exe : String) : String :=
  String.mk (dropExeSuffix isWin ((baseNameChars isWin exe.toList []).map Char.toLower))

/-- Modelled from the spec: the shell classifier, a purely textual match of the
normalised base name against the literal names `pwsh`, `bash`, `zsh`. -/
def classifyShell (ctx : SysContext) (exe : String) : ShellFamily :=
  let base := shellBaseName ctx.isWindows exe
  if base = "pwsh" then ShellFamily.pwsh
  else if base = "bash" then ShellFamily.bash
  else if base = "zsh" then ShellFamily.zsh
  else ShellFamily.unsupported

/-- Modelled from the spec: the argument normalizer — absent becomes the empty
sequence, a single string becomes exactly one token (except that for bash the
empty string is treated as the empty sequence), a sequence is used as-is. -/
def normalizeArgs (fam : ShellFamily) (a : ShellArgs) : List String :=
  match a with
  | ShellArgs.unset => []
  | ShellArgs.str s => if fam = ShellFamily.bash ∧ s = "" then [] else [s]
  | ShellArgs.list l => l

/-- Modelled from the spec: does the token match, case-insensitively, a prefix
of the literal `-nologo` of length at least 4 (including the leading dash)? -/
def matchesNoLogo (t : String) : Bool :=
  let l := (lowerStr t).toList
  decide (4 ≤ l.length) && List.isPrefixOf l "-nologo".toList

/-- A token of the recognized vocabulary for a family: the exact literal `-l`,
and for the PowerShell-compatible family also any `-nologo` prefix form. -/
def recognizedToken (fam : ShellFamily) (t : String) : Prop :=
  t = "-l" ∨ (fam = ShellFamily.pwsh ∧ matchesNoLogo t = true)

instance (fam : ShellFamily) (t : String) : Decidable (recognizedToken fam t) := by
  unfold recognizedToken
  infer_instance

/-- Modelled from the spec: the flag matcher — scans the normalized tokens,
consuming the exact login flag `-l`, consuming a `-nologo` prefix form for the
PowerShell-compatible family only, and aborting (fail-closed) on anything
else. -/
def matchFlags (fam : ShellFamily) (acc : RecognizedFlags) : List String → Option RecognizedFlags
  | [] => some acc
  | t :: rest =>
    if t = "-l" then matchFlags fam { acc with hasLogin := true } rest
    else if fam = ShellFamily.pwsh ∧ matchesNoLogo t = true then
      matchFlags fam { acc with hasNoLogoOrEquivalent := true } rest
    else none

/-- Modelled from the spec: the installation-relative path of a bundled
integration asset, appended to the installation root with the platform's
separators (cross-checked against `expectedPs1` and `expectedSources` of the
test suite). -/
def mediaPath (ctx : SysContext) (file : String) : String :=
  if ctx.isWindows then
    ctx.appRoot ++ "\\out\\vs\\workbench\\contrib\\terminal\\browser\\media\\" ++ file
  else
    ctx.appRoot ++ "/out/vs/workbench/contrib/terminal/browser/media/" ++ file

/-- Modelled from the spec: the PowerShell activation command — a dot-source of
the bundled `shellIntegration.ps1`, wrapped in try/catch on the backslash
platform (cross-checked against the test suite's `expectedPs1`). -/
def pwshActivationCommand (ctx : SysContext) : String :=
  if ctx.isWindows then
    "try \x7b . \"" ++ mediaPath ctx "shellIntegration.ps1" ++ "\" \x7d catch \x7b\x7d"
  else
    ". \"" ++ mediaPath ctx "shellIntegration.ps1" ++ "\""

/-- Modelled from the spec: the PowerShell-compatible strategy — the login flag
re-emitted first when recognized, then `-noexit -command <activation>`, with
only `VSCODE_INJECTION` in the overlay and no files to stage. -/
def pwshPlan (ctx : SysContext) (flags : RecognizedFlags) : IShellIntegrationConfigInjection :=
  { newArgs := (if flags.hasLogin then ["-l"] else []) ++
      ["-noexit", "-command", pwshActivationCommand ctx]
    envMixin := [("VSCODE_INJECTION", "1")]
    filesToCopy := none }

/-- Modelled from the spec: the bash strategy — arguments replaced by
`--init-file <script>` unconditionally, the login flag moved into the
environment overlay as `VSCODE_SHELL_LOGIN`, no files to stage. -/
def bashPlan (ctx : SysContext) (flags : RecognizedFlags) : IShellIntegrationConfigInjection :=
  { newArgs := ["--init-file", mediaPath ctx "shellIntegration-bash.sh"]
    envMixin := [("VSCODE_INJECTION", "1")] ++
      (if flags.hasLogin then [("VSCODE_SHELL_LOGIN", "1")] else [])
    filesToCopy := none }

/-- Modelled from the spec: the per-user isolated zsh dotfile directory
`<platform-temp-root>/<current-username>-vscode-zsh`. -/
def zshDotDir (ctx : SysContext) : String :=
  ctx.tmpdir ++ "/" ++ ctx.username ++ "-vscode-zsh"

/-- Modelled from the spec: the `USER_ZDOTDIR` value of the zsh overlay —
`environment.USER_ZDOTDIR` if present, else `environment.ZDOTDIR` if present,
else the current user's home directory (also when the environment parameter is
entirely absent). -/
def userZdotdir (ctx : SysContext) (env : Option Environment) : String :=
  match env with
  | none => ctx.homedir
  | some e =>
    match e.USER_ZDOTDIR with
    | some u => u
    | none =>
      match e.ZDOTDIR with
      | some z => z
      | none => ctx.homedir

/-- Modelled from the spec: the zsh strategy — `-i` (or the concatenated `-il`),
a three-entry overlay redirecting `ZDOTDIR` to the isolated directory, and the
four staged dotfiles (order cross-checked against `expectedDests` and
`expectedSources` of the test suite). -/
def zshPlan (ctx : SysContext) (env : Option Environment)
    (flags : RecognizedFlags) : IShellIntegrationConfigInjection :=
  { newArgs := if flags.hasLogin then ["-il"] else ["-i"]
    envMixin := [("ZDOTDIR", zshDotDir ctx),
      ("USER_ZDOTDIR", userZdotdir ctx env),
      ("VSCODE_INJECTION", "1")]
    filesToCopy := some [
      { source := mediaPath ctx "shellIntegration-rc.zsh", dest := zshDotDir ctx ++ "/.zshrc" },
      { source := mediaPath ctx "shellIntegration-profile.zsh", dest := zshDotDir ctx ++ "/.zprofile" },
      { source := mediaPath ctx "shellIntegration-env.zsh", dest := zshDotDir ctx ++ "/.zshenv" },
      { source := mediaPath ctx "shellIntegration-login.zsh", dest := zshDotDir ctx ++ "/.zlogin" }] }

/-- Modelled from the spec: the resolver `getShellIntegrationInjection` of the
missing `vs/platform/terminal/node/terminalEnvironment.ts` — gate, classifier,
normalizer/flag matcher, then the per-family strategy; "none" at every
rejection point. -/
def getShellIntegrationInjection (ctx : SysContext) (req : LaunchRequest)
    (opts : IntegrationPolicy) (env : Option Environment) :
    Option IShellIntegrationConfigInjection :=
  if opts.enabled = false ∨ req.isFeatureTerminal = true ∨ req.executable = "" then none
  else
    match classifyShell ctx req.executable with
    | ShellFamily.pwsh =>
      Option.map (pwshPlan ctx)
        (matchFlags ShellFamily.pwsh ⟨false, false⟩ (normalizeArgs ShellFamily.pwsh req.args))
    | ShellFamily.bash =>
      Option.map (bashPlan ctx)
        (matchFlags ShellFamily.bash ⟨false, false⟩ (normalizeArgs ShellFamily.bash req.args))
    | ShellFamily.zsh =>
      Option.map (zshPlan ctx env)
        (matchFlags ShellFamily.zsh ⟨false, false⟩ (normalizeArgs ShellFamily.zsh req.args))
    | ShellFamily.unsupported => none

/-- A concrete sample context used to evaluate the resolver at concrete
inputs: a non-backslash platform with an installation root of `/repo`. -/
def ctxLinux : SysContext :=
  { isWindows := false, appRoot := "/repo", username := "user",
    homedir := "/home/user", tmpdir := "/tmp" }

/-- The gate: a disabled policy, a feature terminal or an empty executable
short-circuits the resolver to "none". -/
theorem gate_none (ctx : SysContext) (req : LaunchRequest) (opts : IntegrationPolicy)
    (env : Option Environment)
    (hg : opts.enabled = false ∨ req.isFeatureTerminal = true ∨ req.executable = "") :
    getShellIntegrationInjection ctx req opts env = none := by
  unfold getShellIntegrationInjection
  rw [if_pos hg]

/-- Past the gate, a PowerShell-classified request runs the PowerShell
strategy on the matched flags. -/
theorem run_pwsh (ctx : SysContext) (req : LaunchRequest) (opts : IntegrationPolicy)
    (env : Option Environment)
    (hng : ¬(opts.enabled = false ∨ req.isFeatureTerminal = true ∨ req.executable = ""))
    (hfam : classifyShell ctx req.executable = ShellFamily.pwsh) :
    getShellIntegrationInjection ctx req opts env =
      Option.map (pwshPlan ctx)
        (matchFlags ShellFamily.pwsh ⟨false, false⟩ (normalizeArgs ShellFamily.pwsh req.args)) := by
  unfold getShellIntegrationInjection
  rw [if_neg hng, hfam]

/-- Past the gate, a bash-classified request runs the bash strategy on the
matched flags. -/
theorem run_bash (ctx : SysContext) (req : LaunchRequest) (opts : IntegrationPolicy)
    (env : Option Environment)
    (hng : ¬(opts.enabled = false ∨ req.isFeatureTerminal = true ∨ req.executable = ""))
    (hfam : classifyShell ctx req.executable = ShellFamily.bash) :
    getShellIntegrationInjection ctx req opts env =
      Option.map (bashPlan ctx)
        (matchFlags ShellFamily.bash ⟨false, false⟩ (normalizeArgs ShellFamily.bash req.args)) := by
  unfold getShellIntegrationInjection
  rw [if_neg hng, hfam]

/-- Past the gate, a zsh-classified request runs the zsh strategy on the
matched flags. -/
theorem run_zsh (ctx : SysContext) (req : LaunchRequest) (opts : IntegrationPolicy)
    (env : Option Environment)
    (hng : ¬(opts.enabled = false ∨ req.isFeatureTerminal = true ∨ req.executable = ""))
    (hfam : classifyShell ctx req.executable = ShellFamily.zsh) :
    getShellIntegrationInjection ctx req opts env =
      Option.map (zshPlan ctx env)
        (matchFlags ShellFamily.zsh ⟨false, false⟩ (normalizeArgs ShellFamily.zsh req.args)) := by
  unfold getShellIntegrationInjection
  rw [if_neg hng, hfam]

/-- An unsupported executable is never injected into. -/
theorem run_unsupported (ctx : SysContext) (req : LaunchRequest) (opts : IntegrationPolicy)
    (env : Option Environment)
    (hfam : classifyShell ctx req.executable = ShellFamily.unsupported) :
    getShellIntegrationInjection ctx req opts env = none := by
  unfold getShellIntegrationInjection
  by_cases hg : opts.enabled = false ∨ req.isFeatureTerminal = true ∨ req.executable = ""
  · rw [if_pos hg]
  · rw [if_neg hg, hfam]

/-- The flag matcher fails closed: one token outside the recognized vocabulary
makes the whole scan return "none", whatever the accumulated flags. -/
theorem matchFlags_none_of_unrecognized (fam : ShellFamily) (t : String)
    (hr : ¬ recognizedToken fam t) :
    ∀ (ts : List String) (acc : RecognizedFlags), t ∈ ts → matchFlags fam acc ts = none := by
  intro ts
  induction ts with
  | nil =>
    intro acc ht
    exact absurd ht (List.not_mem_nil t)
  | cons u rest ih =>
    intro acc ht
    rcases List.mem_cons.mp ht with h1 | h2
    · subst h1
      simp only [matchFlags]
      rw [if_neg (fun hc => hr (Or.inl hc)), if_neg (fun hc => hr (Or.inr hc))]
    · simp only [matchFlags]
      split
      · exact ih _ h2
      · split
        · exact ih _ h2
        · rfl

/-- Inversion: a successful PowerShell-classified resolution is the PowerShell
plan of some successfully matched flags. -/
theorem some_plan_pwsh (ctx : SysContext) (req : LaunchRequest) (opts : IntegrationPolicy)
    (env : Option Environment) (plan : IShellIntegrationConfigInjection)
    (hfam : classifyShell ctx req.executable = ShellFamily.pwsh)
    (h : getShellIntegrationInjection ctx req opts env = some plan) :
    ∃ flags, matchFlags ShellFamily.pwsh ⟨false, false⟩ (normalizeArgs ShellFamily.pwsh req.args) =
        some flags ∧ plan = pwshPlan ctx flags := by
  by_cases hg : opts.enabled = false ∨ req.isFeatureTerminal = true ∨ req.executable = ""
  · rw [gate_none ctx req opts env hg] at h
    exact absurd h (by simp)
  · rw [run_pwsh ctx req opts env hg hfam] at h
    cases hm : matchFlags ShellFamily.pwsh ⟨false, false⟩ (normalizeArgs ShellFamily.pwsh req.args) with
    | none => rw [hm] at h; exact absurd h (by simp)
    | some flags =>
      rw [hm] at h
      simp only [Option.map_some', Option.some.injEq] at h
      exact ⟨flags, rfl, h.symm⟩

/-- Inversion: a successful bash-classified resolution is the bash plan of some
successfully matched flags. -/
theorem some_plan_bash (ctx : SysContext) (req : LaunchRequest) (opts : IntegrationPolicy)
    (env : Option Environment) (plan : IShellIntegrationConfigInjection)
    (hfam : classifyShell ctx req.executable = ShellFamily.bash)
    (h : getShellIntegrationInjection ctx req opts env = some plan) :
    ∃ flags, matchFlags ShellFamily.bash ⟨false, false⟩ (normalizeArgs ShellFamily.bash req.args) =
        some flags ∧ plan = bashPlan ctx flags := by
  by_cases hg : opts.enabled = false ∨ req.isFeatureTerminal = true ∨ req.executable = ""
  · rw [gate_none ctx req opts env hg] at h
    exact absurd h (by simp)
  · rw [run_bash ctx req opts env hg hfam] at h
    cases hm : matchFlags ShellFamily.bash ⟨false, false⟩ (normalizeArgs ShellFamily.bash req.args) with
    | none => rw [hm] at h; exact absurd h (by simp)
    | some flags =>
      rw [hm] at h
      simp only [Option.map_some', Option.some.injEq] at h
      exact ⟨flags, rfl, h.symm⟩

/-- Inversion: a successful zsh-classified resolution is the zsh plan of some
successfully matched flags. -/
theorem some_plan_zsh (ctx : SysContext) (req : LaunchRequest) (opts : IntegrationPolicy)
    (env : Option Environment) (plan : IShellIntegrationConfigInjection)
    (hfam : classifyShell ctx req.executable = ShellFamily.zsh)
    (h : getShellIntegrationInjection ctx req opts env = some plan) :
    ∃ flags, matchFlags ShellFamily.zsh ⟨false, false⟩ (normalizeArgs ShellFamily.zsh req.args) =
        some flags ∧ plan = zshPlan ctx env flags := by
  by_cases hg : opts.enabled = false ∨ req.isFeatureTerminal = true ∨ req.executable = ""
  · rw [gate_none ctx req opts env hg] at h
    exact absurd h (by simp)
  · rw [run_zsh ctx req opts env hg hfam] at h
    cases hm : matchFlags ShellFamily.zsh ⟨false, false⟩ (normalizeArgs ShellFamily.zsh req.args) with
    | none => rw [hm] at h; exact absurd h (by simp)
    | some flags =>
      rw [hm] at h
      simp only [Option.map_some', Option.some.injEq] at h
      exact ⟨flags, rfl, h.symm⟩

/-- Two argument representations whose PowerShell flag-matching outcomes map to
the same plan give the same resolver result (enabled policy, ordinary
terminal). -/
theorem pwsh_same_plan (ctx : SysContext) (exe : String) (env : Option Environment)
    (a b : ShellArgs) (hfam : classifyShell ctx exe = ShellFamily.pwsh)
    (hab : Option.map (pwshPlan ctx)
        (matchFlags ShellFamily.pwsh ⟨false, false⟩ (normalizeArgs ShellFamily.pwsh a)) =
      Option.map (pwshPlan ctx)
        (matchFlags ShellFamily.pwsh ⟨false, false⟩ (normalizeArgs ShellFamily.pwsh b))) :
    getShellIntegrationInjection ctx ⟨exe, a, false⟩ ⟨true⟩ env =
      getShellIntegrationInjection ctx ⟨exe, b, false⟩ ⟨true⟩ env := by
  by_cases he : exe = ""
  · rw [gate_none ctx ⟨exe, a, false⟩ ⟨true⟩ env (Or.inr (Or.inr he)),
      gate_none ctx ⟨exe, b, false⟩ ⟨true⟩ env (Or.inr (Or.inr he))]
  · have hng : ¬((true : Bool) = false ∨ (false : Bool) = true ∨ exe = "") := by
      intro hcon
      rcases hcon with h1 | h2 | h3
      · exact Bool.noConfusion h1
      · exact Bool.noConfusion h2
      · exact he h3
    rw [run_pwsh ctx ⟨exe, a, false⟩ ⟨true⟩ env hng hfam,
      run_pwsh ctx ⟨exe, b, false⟩ ⟨true⟩ env hng hfam]
    exact hab

/-- Two argument representations that normalize to the same token list give the
same resolver result. -/
theorem args_congr (ctx : SysContext) (exe : String) (ift : Bool)
    (opts : IntegrationPolicy) (env : Option Environment) (a b : ShellArgs)
    (fam : ShellFamily) (hfam : classifyShell ctx exe = fam)
    (hab : normalizeArgs fam a = normalizeArgs fam b) :
    getShellIntegrationInjection ctx ⟨exe, a, ift⟩ opts env =
      getShellIntegrationInjection ctx ⟨exe, b, ift⟩ opts env := by
  by_cases hg : opts.enabled = false ∨ ift = true ∨ exe = ""
  · rw [gate_none ctx ⟨exe, a, ift⟩ opts env hg, gate_none ctx ⟨exe, b, ift⟩ opts env hg]
  · cases fam with
    | pwsh =>
      rw [run_pwsh ctx ⟨exe, a, ift⟩ opts env hg hfam, run_pwsh ctx ⟨exe, b, ift⟩ opts env hg hfam]
      exact congrArg (Option.map (pwshPlan ctx))
        (congrArg (matchFlags ShellFamily.pwsh ⟨false, false⟩) hab)
    | bash =>
      rw [run_bash ctx ⟨exe, a, ift⟩ opts env hg hfam, run_bash ctx ⟨exe, b, ift⟩ opts env hg hfam]
      exact congrArg (Option.map (bashPlan ctx))
        (congrArg (matchFlags ShellFamily.bash ⟨false, false⟩) hab)
    | zsh =>
      rw [run_zsh ctx ⟨exe, a, ift⟩ opts env hg hfam, run_zsh ctx ⟨exe, b, ift⟩ opts env hg hfam]
      exact congrArg (Option.map (zshPlan ctx env))
        (congrArg (matchFlags ShellFamily.zsh ⟨false, false⟩) hab)
    | unsupported =>
      rw [run_unsupported ctx ⟨exe, a, ift⟩ opts env hfam,
        run_unsupported ctx ⟨exe, b, ift⟩ opts env hfam]

/-- C1: fail-closed on unrecognized arguments — whenever the normalized token
list contains a token outside the recognized vocabulary of the classified shell
family, the resolver returns "none"; in particular PowerShell-compatible with
`["-l", "-NoLogo", "-i"]`, zsh with `["-l", "-fake"]` and bash with
`["-l", "-i"]` all yield "none" even under an enabled policy. -/
theorem c1_fail_closed_on_unrecognized_args :
    (∀ (ctx : SysContext) (req : LaunchRequest) (opts : IntegrationPolicy)
      (env : Option Environment) (t : String),
      t ∈ normalizeArgs (classifyShell ctx req.executable) req.args →
      ¬ recognizedToken (classifyShell ctx req.executable) t →
      getShellIntegrationInjection ctx req opts env = none) ∧
    getShellIntegrationInjection ctxLinux ⟨"pwsh", ShellArgs.list ["-l", "-NoLogo", "-i"], false⟩
      ⟨true⟩ (some ⟨none, none⟩) = none ∧
    getShellIntegrationInjection ctxLinux ⟨"zsh", ShellArgs.list ["-l", "-fake"], false⟩
      ⟨true⟩ (some ⟨none, none⟩) = none ∧
    getShellIntegrationInjection ctxLinux ⟨"bash", ShellArgs.list ["-l", "-i"], false⟩
      ⟨true⟩ (some ⟨none, none⟩) = none := by
  refine ⟨?_, by decide, by decide, by decide⟩
  intro ctx req opts env t ht hr
  by_cases hg : opts.enabled = false ∨ req.isFeatureTerminal = true ∨ req.executable = ""
  · exact gate_none ctx req opts env hg
  · rcases hfam : classifyShell ctx req.executable with _ | _ | _ | _
    · rw [hfam] at ht hr
      rw [run_pwsh ctx req opts env hg hfam,
        matchFlags_none_of_unrecognized ShellFamily.pwsh t hr _ _ ht]
      rfl
    · rw [hfam] at ht hr
      rw [run_bash ctx req opts env hg hfam,
        matchFlags_none_of_unrecognized ShellFamily.bash t hr _ _ ht]
      rfl
    · rw [hfam] at ht hr
      rw [run_zsh ctx req opts env hg hfam,
        matchFlags_none_of_unrecognized ShellFamily.zsh t hr _ _ ht]
      rfl
    · exact run_unsupported ctx req opts env hfam

/-- Witness for C1: the universal part applied at zsh with the unrecognized
token `-fake` under an enabled policy. -/
theorem c1_fail_closed_on_unrecognized_args_witness :
    getShellIntegrationInjection ctxLinux ⟨"zsh", ShellArgs.list ["-l", "-fake"], false⟩
      ⟨true⟩ none = none :=
  c1_fail_closed_on_unrecognized_args.1 ctxLinux
    ⟨"zsh", ShellArgs.list ["-l", "-fake"], false⟩ ⟨true⟩ none "-fake" (by decide) (by decide)

/-- C2: the gate — a disabled policy, a feature terminal, or an empty
executable makes the resolver return "none" regardless of shell family or
arguments. -/
theorem c2_gate_short_circuits (ctx : SysContext) (req : LaunchRequest)
    (opts : IntegrationPolicy) (env : Option Environment)
    (hg : opts.enabled = false ∨ req.isFeatureTerminal = true ∨ req.executable = "") :
    getShellIntegrationInjection ctx req opts env = none :=
  gate_none ctx req opts env hg

/-- Witness for C2: a disabled policy on an otherwise valid PowerShell launch
yields "none". -/
theorem c2_gate_short_circuits_witness :
    getShellIntegrationInjection ctxLinux ⟨"pwsh", ShellArgs.list ["-l"], false⟩
      ⟨false⟩ none = none :=
  c2_gate_short_circuits ctxLinux ⟨"pwsh", ShellArgs.list ["-l"], false⟩ ⟨false⟩ none
    (Or.inl rfl)

/-- C3: zsh environment derivation — every successful zsh resolution has exactly
the three overlay entries `ZDOTDIR` (the per-user isolated directory),
`USER_ZDOTDIR` (`environment.USER_ZDOTDIR`, else `environment.ZDOTDIR`, else the
home directory — also when the environment is entirely absent, per
`userZdotdir`), and `VSCODE_INJECTION = "1"`. -/
theorem c3_zsh_environment_derivation (ctx : SysContext) (req : LaunchRequest)
    (opts : IntegrationPolicy) (env : Option Environment)
    (plan : IShellIntegrationConfigInjection)
    (hfam : classifyShell ctx req.executable = ShellFamily.zsh)
    (h : getShellIntegrationInjection ctx req opts env = some plan) :
    plan.envMixin =
      [("ZDOTDIR", ctx.tmpdir ++ "/" ++ ctx.username ++ "-vscode-zsh"),
        ("USER_ZDOTDIR", userZdotdir ctx env),
        ("VSCODE_INJECTION", "1")] := by
  obtain ⟨flags, hm, hp⟩ := some_plan_zsh ctx req opts env plan hfam h
  subst hp
  rfl

/-- Witness for C3: the zsh resolution with no environment at all binds
`USER_ZDOTDIR` to the home directory. -/
theorem c3_zsh_environment_derivation_witness :
    (zshPlan ctxLinux none ⟨false, false⟩).envMixin =
      [("ZDOTDIR", ctxLinux.tmpdir ++ "/" ++ ctxLinux.username ++ "-vscode-zsh"),
        ("USER_ZDOTDIR", userZdotdir ctxLinux none),
        ("VSCODE_INJECTION", "1")] :=
  c3_zsh_environment_derivation ctxLinux ⟨"zsh", ShellArgs.list [], false⟩ ⟨true⟩ none
    (zshPlan ctxLinux none ⟨false, false⟩) (by decide) (by decide)

/-- C4: PowerShell-compatible strategy postcondition — every successful
PowerShell-compatible resolution has `newArgs` equal to `["-l"]` when the login
flag was recognized (empty otherwise) followed by exactly
`["-noexit", "-command", <activation>]`, where the activation command
dot-sources the bundled `shellIntegration.ps1` path and is wrapped in try/catch
exactly on the backslash platform, and `envMixin` is exactly
`VSCODE_INJECTION = "1"`. -/
theorem c4_pwsh_strategy_postcondition (ctx : SysContext) (req : LaunchRequest)
    (opts : IntegrationPolicy) (env : Option Environment)
    (plan : IShellIntegrationConfigInjection)
    (hfam : classifyShell ctx req.executable = ShellFamily.pwsh)
    (h : getShellIntegrationInjection ctx req opts env = some plan) :
    ∃ flags, matchFlags ShellFamily.pwsh ⟨false, false⟩
        (normalizeArgs ShellFamily.pwsh req.args) = some flags ∧
      plan.newArgs = (if flags.hasLogin then ["-l"] else []) ++
        ["-noexit", "-command",
          if ctx.isWindows then
            "try \x7b . \"" ++ mediaPath ctx "shellIntegration.ps1" ++ "\" \x7d catch \x7b\x7d"
          else
            ". \"" ++ mediaPath ctx "shellIntegration.ps1" ++ "\""] ∧
      plan.envMixin = [("VSCODE_INJECTION", "1")] := by
  obtain ⟨flags, hm, hp⟩ := some_plan_pwsh ctx req opts env plan hfam h
  subst hp
  exact ⟨flags, hm, rfl, rfl⟩

/-- Witness for C4: the PowerShell resolution of `["-l"]` on the sample
context. -/
theorem c4_pwsh_strategy_postcondition_witness :
    ∃ flags, matchFlags ShellFamily.pwsh ⟨false, false⟩
        (normalizeArgs ShellFamily.pwsh (ShellArgs.list ["-l"])) = some flags ∧
      (pwshPlan ctxLinux ⟨true, false⟩).newArgs = (if flags.hasLogin then ["-l"] else []) ++
        ["-noexit", "-command",
          if ctxLinux.isWindows then
            "try \x7b . \"" ++ mediaPath ctxLinux "shellIntegration.ps1" ++ "\" \x7d catch \x7b\x7d"
          else
            ". \"" ++ mediaPath ctxLinux "shellIntegration.ps1" ++ "\""] ∧
      (pwshPlan ctxLinux ⟨true, false⟩).envMixin = [("VSCODE_INJECTION", "1")] :=
  c4_pwsh_strategy_postcondition ctxLinux ⟨"pwsh", ShellArgs.list ["-l"], false⟩ ⟨true⟩ none
    (pwshPlan ctxLinux ⟨true, false⟩) (by decide) (by decide)

/-- C5: bash strategy postcondition — every successful bash resolution replaces
the arguments by exactly `["--init-file", <bundled script>]` (the login flag is
never re-emitted), and `envMixin` is `VSCODE_INJECTION = "1"` plus
`VSCODE_SHELL_LOGIN = "1"` exactly when the login flag was recognized. -/
theorem c5_bash_strategy_postcondition (ctx : SysContext) (req : LaunchRequest)
    (opts : IntegrationPolicy) (env : Option Environment)
    (plan : IShellIntegrationConfigInjection)
    (hfam : classifyShell ctx req.executable = ShellFamily.bash)
    (h : getShellIntegrationInjection ctx req opts env = some plan) :
    ∃ flags, matchFlags ShellFamily.bash ⟨false, false⟩
        (normalizeArgs ShellFamily.bash req.args) = some flags ∧
      plan.newArgs = ["--init-file", mediaPath ctx "shellIntegration-bash.sh"] ∧
      plan.envMixin = [("VSCODE_INJECTION", "1")] ++
        (if flags.hasLogin then [("VSCODE_SHELL_LOGIN", "1")] else []) := by
  obtain ⟨flags, hm, hp⟩ := some_plan_bash ctx req opts env plan hfam h
  subst hp
  exact ⟨flags, hm, rfl, rfl⟩

/-- Witness for C5: the bash resolution of `["-l"]` on the sample context. -/
theorem c5_bash_strategy_postcondition_witness :
    ∃ flags, matchFlags ShellFamily.bash ⟨false, false⟩
        (normalizeArgs ShellFamily.bash (ShellArgs.list ["-l"])) = some flags ∧
      (bashPlan ctxLinux ⟨true, false⟩).newArgs =
        ["--init-file", mediaPath ctxLinux "shellIntegration-bash.sh"] ∧
      (bashPlan ctxLinux ⟨true, false⟩).envMixin = [("VSCODE_INJECTION", "1")] ++
        (if (⟨true, false⟩ : RecognizedFlags).hasLogin then [("VSCODE_SHELL_LOGIN", "1")] else []) := by
  have := c5_bash_strategy_postcondition ctxLinux ⟨"bash", ShellArgs.list ["-l"], false⟩ ⟨true⟩
    none (bashPlan ctxLinux ⟨true, false⟩) (by decide) (by decide)
  obtain ⟨flags, hm, h1, h2⟩ := this
  have hf : flags = (⟨true, false⟩ : RecognizedFlags) := by
    have : some flags = some (⟨true, false⟩ : RecognizedFlags) := by rw [← hm]; decide
    exact Option.some.inj this
  subst hf
  exact ⟨⟨true, false⟩, hm, h1, h2⟩

/-- C6: zsh arguments and file staging — every successful zsh resolution has
`newArgs` equal to the single token `-i` (or the concatenated `-il` when the
login flag was recognized), and exactly four staged files copied from the four
bundled zsh assets, in order, to `.zshrc`, `.zprofile`, `.zshenv`, `.zlogin`
under the `<username>-vscode-zsh` directory. -/
theorem c6_zsh_args_and_file_staging (ctx : SysContext) (req : LaunchRequest)
    (opts : IntegrationPolicy) (env : Option Environment)
    (plan : IShellIntegrationConfigInjection)
    (hfam : classifyShell ctx req.executable = ShellFamily.zsh)
    (h : getShellIntegrationInjection ctx req opts env = some plan) :
    ∃ flags, matchFlags ShellFamily.zsh ⟨false, false⟩
        (normalizeArgs ShellFamily.zsh req.args) = some flags ∧
      plan.newArgs = (if flags.hasLogin then ["-il"] else ["-i"]) ∧
      plan.filesToCopy = some [
        { source := mediaPath ctx "shellIntegration-rc.zsh",
          dest := ctx.tmpdir ++ "/" ++ ctx.username ++ "-vscode-zsh" ++ "/.zshrc" },
        { source := mediaPath ctx "shellIntegration-profile.zsh",
          dest := ctx.tmpdir ++ "/" ++ ctx.username ++ "-vscode-zsh" ++ "/.zprofile" },
        { source := mediaPath ctx "shellIntegration-env.zsh",
          dest := ctx.tmpdir ++ "/" ++ ctx.username ++ "-vscode-zsh" ++ "/.zshenv" },
        { source := mediaPath ctx "shellIntegration-login.zsh",
          dest := ctx.tmpdir ++ "/" ++ ctx.username ++ "-vscode-zsh" ++ "/.zlogin" }] := by
  obtain ⟨flags, hm, hp⟩ := some_plan_zsh ctx req opts env plan hfam h
  subst hp
  exact ⟨flags, hm, rfl, rfl⟩

/-- Witness for C6: the zsh resolution of `["-l"]` on the sample context. -/
theorem c6_zsh_args_and_file_staging_witness :
    ∃ flags, matchFlags ShellFamily.zsh ⟨false, false⟩
        (normalizeArgs ShellFamily.zsh (ShellArgs.list ["-l"])) = some flags ∧
      (zshPlan ctxLinux none ⟨true, false⟩).newArgs = (if flags.hasLogin then ["-il"] else ["-i"]) ∧
      (zshPlan ctxLinux none ⟨true, false⟩).filesToCopy = some [
        { source := mediaPath ctxLinux "shellIntegration-rc.zsh",
          dest := ctxLinux.tmpdir ++ "/" ++ ctxLinux.username ++ "-vscode-zsh" ++ "/.zshrc" },
        { source := mediaPath ctxLinux "shellIntegration-profile.zsh",
          dest := ctxLinux.tmpdir ++ "/" ++ ctxLinux.username ++ "-vscode-zsh" ++ "/.zprofile" },
        { source := mediaPath ctxLinux "shellIntegration-env.zsh",
          dest := ctxLinux.tmpdir ++ "/" ++ ctxLinux.username ++ "-vscode-zsh" ++ "/.zshenv" },
        { source := mediaPath ctxLinux "shellIntegration-login.zsh",
          dest := ctxLinux.tmpdir ++ "/" ++ ctxLinux.username ++ "-vscode-zsh" ++ "/.zlogin" }] :=
  c6_zsh_args_and_file_staging ctxLinux ⟨"zsh", ShellArgs.list ["-l"], false⟩ ⟨true⟩ none
    (zshPlan ctxLinux none ⟨true, false⟩) (by decide) (by decide)

/-- C7: no-logo equivalence — for a PowerShell-classified executable under an
enabled policy, each of `["-NoLogo"]`, `["-NOLOGO"]`, `["-nol"]`, `["-NOL"]`,
and the single-string forms `"-NoLogo"`, `"-nol"`, `"-NOLOGO"`, `"-NOL"`,
produces a plan structurally identical to the plan for the empty argument
list. -/
theorem c7_no_logo_equivalence (ctx : SysContext) (exe : String)
    (env : Option Environment) (hfam : classifyShell ctx exe = ShellFamily.pwsh) :
    (getShellIntegrationInjection ctx ⟨exe, ShellArgs.list ["-NoLogo"], false⟩ ⟨true⟩ env =
      getShellIntegrationInjection ctx ⟨exe, ShellArgs.list [], false⟩ ⟨true⟩ env) ∧
    (getShellIntegrationInjection ctx ⟨exe, ShellArgs.list ["-NOLOGO"], false⟩ ⟨true⟩ env =
      getShellIntegrationInjection ctx ⟨exe, ShellArgs.list [], false⟩ ⟨true⟩ env) ∧
    (getShellIntegrationInjection ctx ⟨exe, ShellArgs.list ["-nol"], false⟩ ⟨true⟩ env =
      getShellIntegrationInjection ctx ⟨exe, ShellArgs.list [], false⟩ ⟨true⟩ env) ∧
    (getShellIntegrationInjection ctx ⟨exe, ShellArgs.list ["-NOL"], false⟩ ⟨true⟩ env =
      getShellIntegrationInjection ctx ⟨exe, ShellArgs.list [], false⟩ ⟨true⟩ env) ∧
    (getShellIntegrationInjection ctx ⟨exe, ShellArgs.str "-NoLogo", false⟩ ⟨true⟩ env =
      getShellIntegrationInjection ctx ⟨exe, ShellArgs.list [], false⟩ ⟨true⟩ env) ∧
    (getShellIntegrationInjection ctx ⟨exe, ShellArgs.str "-nol", false⟩ ⟨true⟩ env =
      getShellIntegrationInjection ctx ⟨exe, ShellArgs.list [], false⟩ ⟨true⟩ env) ∧
    (getShellIntegrationInjection ctx ⟨exe, ShellArgs.str "-NOLOGO", false⟩ ⟨true⟩ env =
      getShellIntegrationInjection ctx ⟨exe, ShellArgs.list [], false⟩ ⟨true⟩ env) ∧
    (getShellIntegrationInjection ctx ⟨exe, ShellArgs.str "-NOL", false⟩ ⟨true⟩ env =
      getShellIntegrationInjection ctx ⟨exe, ShellArgs.list [], false⟩ ⟨true⟩ env) := by
  refine ⟨?_, ?_, ?_, ?_, ?_, ?_, ?_, ?_⟩ <;>
    exact pwsh_same_plan ctx exe env _ _ hfam (by rfl)

/-- Witness for C7: the equivalences instantiated at the sample context with
the executable `pwsh`. -/
theorem c7_no_logo_equivalence_witness :
    getShellIntegrationInjection ctxLinux ⟨"pwsh", ShellArgs.list ["-NoLogo"], false⟩ ⟨true⟩ none =
      getShellIntegrationInjection ctxLinux ⟨"pwsh", ShellArgs.list [], false⟩ ⟨true⟩ none :=
  (c7_no_logo_equivalence ctxLinux "pwsh" none (by decide)).1

/-- C8: single-string argument normalization — for every shell family a single
string is exactly one token, never split on whitespace, except that for bash
the empty string is the empty sequence; consequently bash with `""`, `[]` and
absent args all produce the same plan. -/
theorem c8_single_string_normalization :
    (∀ (fam : ShellFamily) (s : String), s ≠ "" →
      normalizeArgs fam (ShellArgs.str s) = [s]) ∧
    (∀ fam : ShellFamily, fam ≠ ShellFamily.bash →
      normalizeArgs fam (ShellArgs.str "") = [""]) ∧
    normalizeArgs ShellFamily.bash (ShellArgs.str "") = [] ∧
    (∀ (ctx : SysContext) (exe : String) (opts : IntegrationPolicy) (env : Option Environment),
      classifyShell ctx exe = ShellFamily.bash →
      (getShellIntegrationInjection ctx ⟨exe, ShellArgs.str "", false⟩ opts env =
        getShellIntegrationInjection ctx ⟨exe, ShellArgs.list [], false⟩ opts env) ∧
      (getShellIntegrationInjection ctx ⟨exe, ShellArgs.unset, false⟩ opts env =
        getShellIntegrationInjection ctx ⟨exe, ShellArgs.list [], false⟩ opts env)) := by
  refine ⟨?_, ?_, rfl, ?_⟩
  · intro fam s hs
    simp only [normalizeArgs]
    rw [if_neg (fun hc => hs hc.2)]
  · intro fam hfam
    simp only [normalizeArgs]
    rw [if_neg (fun hc => hfam hc.1)]
  · intro ctx exe opts env hfam
    exact ⟨args_congr ctx exe false opts env (ShellArgs.str "") (ShellArgs.list [])
        ShellFamily.bash hfam rfl,
      args_congr ctx exe false opts env ShellArgs.unset (ShellArgs.list [])
        ShellFamily.bash hfam rfl⟩

/-- Witness for C8: a whitespace-containing string stays one token, and bash
with the empty string resolves like bash with the empty list. -/
theorem c8_single_string_normalization_witness :
    normalizeArgs ShellFamily.pwsh (ShellArgs.str "-l -i") = ["-l -i"] ∧
    (getShellIntegrationInjection ctxLinux ⟨"bash", ShellArgs.str "", false⟩ ⟨true⟩ none =
      getShellIntegrationInjection ctxLinux ⟨"bash", ShellArgs.list [], false⟩ ⟨true⟩ none) :=
  ⟨c8_single_string_normalization.1 ShellFamily.pwsh "-l -i" (by decide),
    (c8_single_string_normalization.2.2.2 ctxLinux "bash" ⟨true⟩ none (by decide)).1⟩

/-- C9: only zsh plans carry a `filesToCopy` field — every successful
PowerShell-compatible or bash resolution has an absent `filesToCopy`, and every
successful zsh resolution has a present one. -/
theorem c9_filesToCopy_only_for_zsh :
    (∀ (ctx : SysContext) (req : LaunchRequest) (opts : IntegrationPolicy)
      (env : Option Environment) (plan : IShellIntegrationConfigInjection),
      getShellIntegrationInjection ctx req opts env = some plan →
      (classifyShell ctx req.executable = ShellFamily.pwsh ∨
        classifyShell ctx req.executable = ShellFamily.bash) →
      plan.filesToCopy = none) ∧
    (∀ (ctx : SysContext) (req : LaunchRequest) (opts : IntegrationPolicy)
      (env : Option Environment) (plan : IShellIntegrationConfigInjection),
      getShellIntegrationInjection ctx req opts env = some plan →
      classifyShell ctx req.executable = ShellFamily.zsh →
      plan.filesToCopy ≠ none) := by
  constructor
  · intro ctx req opts env plan h hf
    rcases hf with hf | hf
    · obtain ⟨flags, hm, hp⟩ := some_plan_pwsh ctx req opts env plan hf h
      subst hp
      rfl
    · obtain ⟨flags, hm, hp⟩ := some_plan_bash ctx req opts env plan hf h
      subst hp
      rfl
  · intro ctx req opts env plan h hf
    obtain ⟨flags, hm, hp⟩ := some_plan_zsh ctx req opts env plan hf h
    subst hp
    exact fun hc => Option.noConfusion hc

/-- Witness for C9: the bash plan has no `filesToCopy`, the zsh plan has
one. -/
theorem c9_filesToCopy_only_for_zsh_witness :
    (bashPlan ctxLinux ⟨false, false⟩).filesToCopy = none ∧
    (zshPlan ctxLinux none ⟨false, false⟩).filesToCopy ≠ none :=
  ⟨c9_filesToCopy_only_for_zsh.1 ctxLinux ⟨"bash", ShellArgs.list [], false⟩ ⟨true⟩ none
      (bashPlan ctxLinux ⟨false, false⟩) (by decide) (Or.inr (by decide)),
    c9_filesToCopy_only_for_zsh.2 ctxLinux ⟨"zsh", ShellArgs.list [], false⟩ ⟨true⟩ none
      (zshPlan ctxLinux none ⟨false, false⟩) (by decide) (by decide)⟩

/-- C10: in every successful zsh resolution the `ZDOTDIR` overlay value is the
common parent directory of all four staged destination paths, so the staged
dotfiles land in the very directory the shell is redirected to. -/
theorem c10_zdotdir_is_staging_parent (ctx : SysContext) (req : LaunchRequest)
    (opts : IntegrationPolicy) (env : Option Environment)
    (plan : IShellIntegrationConfigInjection)
    (hfam : classifyShell ctx req.executable = ShellFamily.zsh)
    (h : getShellIntegrationInjection ctx req opts env = some plan) :
    ∃ z, plan.envMixin.lookup "ZDOTDIR" = some z ∧
      Option.map (List.map FileToCopy.dest) plan.filesToCopy =
        some [z ++ "/.zshrc", z ++ "/.zprofile", z ++ "/.zshenv", z ++ "/.zlogin"] := by
  obtain ⟨flags, hm, hp⟩ := some_plan_zsh ctx req opts env plan hfam h
  subst hp
  exact ⟨zshDotDir ctx, rfl, rfl⟩

/-- Witness for C10: the zsh resolution on the sample context stages all four
dotfiles under the directory `ZDOTDIR` points at. -/
theorem c10_zdotdir_is_staging_parent_witness :
    ∃ z, (zshPlan ctxLinux none ⟨false, false⟩).envMixin.lookup "ZDOTDIR" = some z ∧
      Option.map (List.map FileToCopy.dest) (zshPlan ctxLinux none ⟨false, false⟩).filesToCopy =
        some [z ++ "/.zshrc", z ++ "/.zprofile", z ++ "/.zshenv", z ++ "/.zlogin"] :=
  c10_zdotdir_is_staging_parent ctxLinux ⟨"zsh", ShellArgs.list [], false⟩ ⟨true⟩ none
    (zshPlan ctxLinux none ⟨false, false⟩) (by decide) (by decide)
